import Mathlib

/-!
Verification development for the Echo Journal repository
(src/Assignment3/EchoJournal/EchoJournal.py and src/Assignment3/TBD/app.py).

The Python program is shallowly embedded: pure helper functions become Lean
functions, the transcription worker loop becomes a recursive function over the
finite trace of items it dequeues, the two-column layout routine becomes a
structurally recursive placement function, and one iteration of the main GUI
loop becomes an explicit state-transition function on a record of the loop
variables.  Machine integers are modelled with Int (Python ints are unbounded,
so no wrap-around is needed); Python floor division // is Int.fdiv; the
floating-point lightness computation is modelled over the rationals.
-/

namespace EchoJournal

/-- A display color, an RGB triple (source: tuples such as (255, 165, 0)). -/
abbrev Color := Nat × Nat × Nat

/-- Source line 36: TARGET_CHARS_FOR_RELEASE = 500. -/
def TARGET_CHARS_FOR_RELEASE : Nat := 500

/-- Source line 39: WINDOW_WIDTH = 1200. -/
def WINDOW_WIDTH : Int := 1200

/-- Source line 40: WINDOW_HEIGHT = 800. -/
def WINDOW_HEIGHT : Int := 800

/-- Source lines 47-58: the fixed emotion-to-color table EMOTION_COLORS. -/
def EMOTION_COLORS : List (String × Color) :=
  [("fear", (100, 149, 237)),
   ("anger", (220, 20, 60)),
   ("sadness", (119, 136, 153)),
   ("disgust", (107, 142, 35)),
   ("joy", (255, 165, 0)),
   ("surprise", (255, 215, 0)),
   ("trust", (255, 182, 193)),
   ("anticipation", (144, 238, 144)),
   ("positive", (60, 179, 113)),
   ("negative", (169, 169, 169))]

/-- Source line 59: DEFAULT_TEXT_COLOR = (0, 0, 0). -/
def DEFAULT_TEXT_COLOR : Color := (0, 0, 0)

/-!  EmotionClassifier (source lines 300-314).  The lexicon collaborator
(NRCLex affect_dict, with dict.get defaulting to the empty list) is modelled
as a total function from a word to its list of affect tags. -/

/-- Python str.lower() (source line 307: word.lower()), character by
character over the string's character list; like Lean's own String.toLower it
maps A-Z to a-z via Char.toLower, but it is written over the character list
so the kernel can evaluate it. -/
def pyLower (s : String) : String :=
  ⟨s.data.map Char.toLower⟩

/-- Source lines 304-314: the per-word color resolution inside main.
affect_list = affect_dict.get(word.lower(), []); default color; if the list is
nonempty take its first element and use the color table when it maps it. -/
def classifyWord (affect_dict : String → List String) (word : String) : Color :=
  match affect_dict (pyLower word) with
  | [] => DEFAULT_TEXT_COLOR
  | primary :: _ =>
    match EMOTION_COLORS.lookup primary with
    | some c => c
    | none => DEFAULT_TEXT_COLOR

/-- Accumulator pass of splitWords: split the character list at whitespace
runs, dropping empty pieces. -/
def splitWordsAux : List Char → List Char → List String
  | [], acc => if acc = [] then [] else [⟨acc.reverse⟩]
  | c :: rest, acc =>
    if c.isWhitespace then
      (if acc = [] then [] else [⟨acc.reverse⟩]) ++ splitWordsAux rest []
    else
      splitWordsAux rest (c :: acc)

/-- Python str.split() with no argument: split on whitespace runs, dropping
empty pieces (source line 302: words = new_text.split()). -/
def splitWords (s : String) : List String :=
  splitWordsAux s.data []

/-- Source lines 302-314: build the list of (word, color) pairs for one
transcript fragment. -/
def buildChunk (affect_dict : String → List String) (text : String) :
    List (String × Color) :=
  (splitWords text).map (fun w => (w, classifyWord affect_dict w))

/-- The concrete one-entry lexicon of the specification scenario. -/
def happyLexicon : String → List String :=
  fun w => if w = "happy" then ["joy"] else []

/-!  AudioChunkQueue / TextQueue (source lines 62-63).  Both are created as
queue.Queue() with no maxsize argument, i.e. maxsize = 0, which the Python
library documents as an infinite queue: put never blocks and never drops. -/

/-- A Python queue.Queue() as created on source lines 62-63: maxsize = 0, so
the queue is an unbounded FIFO list of pending items. -/
structure PyQueue (α : Type) where
  items : List α
deriving DecidableEq

/-- queue.Queue.put on an infinite queue (maxsize = 0): appends, never blocks
(source line 100: audio_queue.put(indata.copy()); line 90: text_queue.put). -/
def PyQueue.put {α : Type} (q : PyQueue α) (x : α) : PyQueue α :=
  ⟨q.items ++ [x]⟩

/-- queue.Queue.qsize: the number of pending items. -/
def PyQueue.qsize {α : Type} (q : PyQueue α) : Nat :=
  q.items.length

/-- queue.Queue.get when the queue is nonempty: the oldest item and the rest;
none when the queue is empty (the caller then blocks or raises Empty). -/
def PyQueue.tryGet {α : Type} (q : PyQueue α) : Option (α × PyQueue α) :=
  match q.items with
  | [] => none
  | x :: rest => some (x, ⟨rest⟩)

/-- A freshly constructed queue.Queue() (source lines 62-63). -/
def PyQueue.empty (α : Type) : PyQueue α := ⟨[]⟩

/-- Dequeue up to n items in FIFO order. -/
def PyQueue.drain {α : Type} : Nat → PyQueue α → List α
  | 0, _ => []
  | n + 1, q =>
    match q.tryGet with
    | none => []
    | some (x, q1) => x :: PyQueue.drain n q1

/-!  TranscriptionWorker (source lines 67-93).  The model, device handling and
numpy reshaping are external collaborators; the transcribe call is modelled as
an opaque function from an audio chunk to either a transcription string (after
join and strip) or a raised exception.  The worker loop is embedded as a
recursive function over the finite list of items it dequeues, where an item is
some chunk or none for the sentinel. -/

/-- Outcome of one queue receive call as observed by the caller. -/
inductive GetResult (α : Type) where
  | item : α → GetResult α
  | emptyRaised : GetResult α
  | blocked : GetResult α
deriving DecidableEq

/-- Source line 81: audio_chunk = audio_queue.get() — block = True, no
timeout.  On a nonempty queue it returns the oldest item; on an empty queue
the call blocks indefinitely and never raises queue.Empty. -/
def workerGet {α : Type} (q : List α) : GetResult α :=
  match q with
  | [] => GetResult.blocked
  | x :: _ => GetResult.item x

/-- Modelled from the spec: "receive one AudioChunk (blocking with timeout)" —
a blocking receive with a finite timeout returns the oldest item of a nonempty
queue, and on an empty queue returns control to the loop by raising Empty once
the timeout elapses (as audio_queue.get(timeout=1) does in
src/Assignment3/TBD/app.py line 51). -/
def specTimedGet {α : Type} (q : List α) : GetResult α :=
  match q with
  | [] => GetResult.emptyRaised
  | x :: _ => GetResult.item x

/-- Source lines 79-93: the worker loop of EchoJournal.py, run over the trace
of dequeued items (some chunk, or none for the sentinel), returning the list
of strings put on text_queue together with the number of receives performed.
On the sentinel: break.  On a transcription exception: print and break.
Otherwise push the transcription exactly when it is nonempty, then loop. -/
def transcription_worker {α : Type} (transcribe : α → Except String String) :
    List (Option α) → List String × Nat
  | [] => ([], 0)
  | none :: _ => ([], 1)
  | some c :: rest =>
    match transcribe c with
    | Except.error _ => ([], 1)
    | Except.ok t =>
      let r := transcription_worker transcribe rest
      ((if t ≠ "" then [t] else []) ++ r.1, r.2 + 1)

/-- The texts the worker pushes to text_queue, in push order. -/
def workerOutputs {α : Type} (transcribe : α → Except String String)
    (items : List (Option α)) : List String :=
  (transcription_worker transcribe items).1

/-!  TextLayoutEngine: draw_text_in_columns, source lines 114-169.  The pygame
font is an external collaborator reduced to its metrics: the width and height
of the rendered surface of a word (word_surface.get_size(), line 135) and the
font line height (font.get_height(), line 159).  The width of one space,
font.size(" ")[0] on line 127, is the width metric applied to the one-space
string.  A blit (line 152) is recorded as a placement ((word, color), x, y).
Python // is floor division, Int.fdiv. -/

/-- Font metrics of the pygame font collaborator. -/
structure Font where
  widthOf : String → Int
  heightOf : String → Int
  lineHeight : Int

/-- Source line 116: margin = 40. -/
def layoutMargin : Int := 40

/-- Source line 117: person_area_width = 250. -/
def person_area_width : Int := 250

/-- Source line 118: col_width = (surface_width - person_area_width - 2*margin) // 2. -/
def colWidth (W : Int) : Int :=
  Int.fdiv (W - person_area_width - 2 * layoutMargin) 2

/-- Source line 120: left_col_x = margin. -/
def leftColX : Int := layoutMargin

/-- Source line 121: right_col_x = surface_width - margin - col_width. -/
def rightColX (W : Int) : Int :=
  W - layoutMargin - colWidth W

/-- The mutable locals of draw_text_in_columns (source lines 123-130). -/
structure LayoutState where
  colY : Int
  currentColX : Int
  currentLineX : Int
  screenFull : Bool
deriving DecidableEq

/-- Initial layout state (source lines 123-130): col_y = margin,
current_col_x = left_col_x, current_line_x = current_col_x, screen_full = False. -/
def initLayoutState : LayoutState :=
  ⟨layoutMargin, leftColX, leftColX, false⟩

/-- One recorded blit: the (word, color) pair and its (x, y) position. -/
abbrev Placement := (String × Color) × Int × Int

/-- Source lines 133-153: one iteration of the inner word loop.  Before
drawing, check the right edge; on a line break also check the column bottom,
switching to the right column or setting screen_full (the break skips the
blit).  When not full, blit at (current_line_x, col_y) and advance the cursor
by word_width + space_width. -/
def placeWord (W H : Int) (f : Font) (wc : String × Color)
    (st : LayoutState) : LayoutState × List Placement :=
  let ww := f.widthOf wc.1
  let wh := f.heightOf wc.1
  let st1 :=
    if st.currentLineX + ww > st.currentColX + colWidth W then
      let stA := { st with colY := st.colY + wh, currentLineX := st.currentColX }
      if stA.colY + wh > H - layoutMargin then
        if stA.currentColX = leftColX then
          { stA with currentColX := rightColX W, colY := layoutMargin,
                     currentLineX := rightColX W }
        else
          { stA with screenFull := true }
      else stA
    else st
  if st1.screenFull then (st1, [])
  else ({ st1 with currentLineX := st1.currentLineX + ww + f.widthOf " " },
        [(wc, st1.currentLineX, st1.colY)])

/-- Source lines 133-153: the inner word loop over one chunk; the break on
screen_full aborts the remaining words of the chunk. -/
def processWords (W H : Int) (f : Font) :
    List (String × Color) → LayoutState → LayoutState × List Placement
  | [], st => (st, [])
  | wc :: rest, st =>
    let r := placeWord W H f wc st
    if r.1.screenFull then r
    else
      let r1 := processWords W H f rest r.1
      (r1.1, r.2 ++ r1.2)

/-- Source lines 158-167: after a chunk, move to the next line (col_y +=
font.get_height(), reset current_line_x to the column start) and check the
column bottom, switching to the right column (without touching current_line_x)
or setting screen_full. -/
def afterChunk (W H : Int) (f : Font) (st : LayoutState) : LayoutState :=
  let st1 := { st with colY := st.colY + f.lineHeight, currentLineX := st.currentColX }
  if st1.colY + f.lineHeight > H - layoutMargin then
    if st1.currentColX = leftColX then
      { st1 with currentColX := rightColX W, colY := layoutMargin }
    else
      { st1 with screenFull := true }
  else st1

/-- Source lines 132-167: the outer chunk loop.  After the inner loop, a set
screen_full flag breaks out before the after-chunk line break; otherwise the
after-chunk step runs and may itself set screen_full and break. -/
def processChunks (W H : Int) (f : Font) :
    List (List (String × Color)) → LayoutState → LayoutState × List Placement
  | [], st => (st, [])
  | ch :: rest, st =>
    let r := processWords W H f ch st
    if r.1.screenFull then r
    else
      let st2 := afterChunk W H f r.1
      if st2.screenFull then (st2, r.2)
      else
        let r1 := processChunks W H f rest st2
        (r1.1, r.2 ++ r1.2)

/-- Source lines 114-169: draw_text_in_columns.  Returns the screen_full flag
(the Python return value) together with the list of placements blitted, in
blit order. -/
def draw_text_in_columns (W H : Int) (f : Font)
    (word_color_chunks : List (List (String × Color))) : Bool × List Placement :=
  let r := processChunks W H f word_color_chunks initLayoutState
  (r.1.screenFull, r.2)

instance : DecidableEq (Bool × List Placement) := instDecidableEqProd

/-!  LifecycleStateMachine and RenderLoop (source lines 209-351).  One
iteration of the main while loop is embedded as a transition function on a
record of the loop variables.  Side effects that leave the state (printing,
saving a screenshot, the actual blits) are dropped; the audio stream is kept
as two booleans: stream_active, the Python variable set once when the stream
starts, and streamOn, whether the underlying sounddevice stream is currently
started.  The text_queue try-receive result is an input to the iteration
(none models a raised queue.Empty). -/

/-- Source line 211: app_state ranges over ONBOARDING, LOADING, RUNNING,
FINISHED. -/
inductive AppState where
  | onboarding : AppState
  | loading : AppState
  | running : AppState
  | finished : AppState
deriving DecidableEq

/-- The pygame events the loop inspects: QUIT, KEYDOWN, MOUSEBUTTONDOWN with
its position. -/
inductive Ev where
  | quit : Ev
  | keyDown : Ev
  | mouseDown : Int × Int → Ev
deriving DecidableEq

/-- A pygame.Rect given by left, top, width, height. -/
structure Rect where
  x : Int
  y : Int
  w : Int
  h : Int
deriving DecidableEq

/-- pygame.Rect.collidepoint: inside the rectangle, right and bottom edges
excluded. -/
def Rect.collidepoint (r : Rect) (p : Int × Int) : Prop :=
  r.x ≤ p.1 ∧ p.1 < r.x + r.w ∧ r.y ≤ p.2 ∧ p.2 < r.y + r.h

instance (r : Rect) (p : Int × Int) : Decidable (r.collidepoint p) := by
  unfold Rect.collidepoint
  infer_instance

/-- Source line 233: stop_button_rect = Rect(WINDOW_WIDTH - 270, WINDOW_HEIGHT - 60, 250, 40). -/
def stop_button_rect : Rect := ⟨WINDOW_WIDTH - 270, WINDOW_HEIGHT - 60, 250, 40⟩

/-- Source line 234: save_button_rect = Rect(WINDOW_WIDTH - 270, WINDOW_HEIGHT - 60, 250, 40). -/
def save_button_rect : Rect := ⟨WINDOW_WIDTH - 270, WINDOW_HEIGHT - 60, 250, 40⟩

/-- Source line 235: resume_button_rect = Rect(WINDOW_WIDTH - 460, WINDOW_HEIGHT - 60, 170, 40). -/
def resume_button_rect : Rect := ⟨WINDOW_WIDTH - 460, WINDOW_HEIGHT - 60, 170, 40⟩

/-- The loop variables of main (source lines 211, 237-240): app_state, the
running flag of the while loop, stream_active, whether the stream is started,
word_color_chunks and total_chars. -/
structure GuiState where
  appState : AppState
  runFlag : Bool
  stream_active : Bool
  streamOn : Bool
  chunks : List (List (String × Color))
  totalChars : Nat
deriving DecidableEq

/-- Source lines 244-266: handling of one pygame event.  QUIT clears the
while-loop flag; a KEYDOWN in ONBOARDING moves to LOADING; a MOUSEBUTTONDOWN
on the pause button while RUNNING moves to FINISHED and stops the stream, and
while FINISHED a click on the save button saves a screenshot (no state
change) and otherwise a click on the resume button moves to RUNNING and
restarts the stream — with no check of the overflow flag. -/
def handleEvent (st : GuiState) (ev : Ev) : GuiState :=
  let st :=
    if ev = Ev.quit then { st with runFlag := false } else st
  let st :=
    if st.appState = AppState.onboarding ∧ ev = Ev.keyDown then
      { st with appState := AppState.loading }
    else st
  match ev with
  | Ev.mouseDown pos =>
    if st.appState = AppState.running ∧ stop_button_rect.collidepoint pos then
      { st with appState := AppState.finished,
                streamOn := if st.stream_active then false else st.streamOn }
    else if st.appState = AppState.finished then
      if save_button_rect.collidepoint pos then st
      else if resume_button_rect.collidepoint pos then
        { st with appState := AppState.running,
                  streamOn := if st.stream_active then true else st.streamOn }
      else st
    else st
  | _ => st

/-- Source lines 295-320: while RUNNING, try-receive one fragment from
text_queue; on text, add its length to total_chars, classify its words, and
append the chunk when it is nonempty; on queue.Empty (none), pass. -/
def consumeFragment (affect_dict : String → List String) (inc : Option String)
    (st : GuiState) : GuiState :=
  match inc with
  | none => st
  | some t =>
    let st1 := { st with totalChars := st.totalChars + t.length }
    let ch := buildChunk affect_dict t
    if ch = [] then st1 else { st1 with chunks := st1.chunks ++ [ch] }

/-- Source line 324: lightness_level = min(1.0, total_chars / TARGET_CHARS_FOR_RELEASE),
over the rationals. -/
def lightness_level (total_chars : Nat) : ℚ :=
  min 1 ((total_chars : ℚ) / (TARGET_CHARS_FOR_RELEASE : ℚ))

/-- Modelled from the spec: clamp(x, lo, hi). -/
def clampSpec (x lo hi : ℚ) : ℚ :=
  max lo (min hi x)

/-- Source lines 268-351 after event handling: the state-machine body of one
loop iteration.  In LOADING, once the model-ready signal is set, start the
stream and move to RUNNING, or terminate fatally when the stream fails to
start.  Then, in RUNNING or FINISHED: while RUNNING consume one fragment;
recompute the layout of the whole transcript; if the screen is full while
RUNNING, move to FINISHED and stop the stream. -/
def framePost (affect_dict : String → List String) (f : Font)
    (modelReady streamStartOk : Bool) (inc : Option String)
    (st : GuiState) : GuiState :=
  let st :=
    if st.appState = AppState.loading ∧ modelReady = true then
      if streamStartOk then
        { st with appState := AppState.running, stream_active := true, streamOn := true }
      else
        { st with runFlag := false }
    else st
  if st.appState = AppState.running ∨ st.appState = AppState.finished then
    let st1 :=
      if st.appState = AppState.running then consumeFragment affect_dict inc st else st
    let full := (draw_text_in_columns WINDOW_WIDTH WINDOW_HEIGHT f st1.chunks).1
    if full = true ∧ st1.appState = AppState.running then
      { st1 with appState := AppState.finished,
                 streamOn := if st1.stream_active then false else st1.streamOn }
    else st1
  else st

/-- Source lines 243-351: one full iteration of the main GUI loop — process
the pending events in order, then run the drawing / state-machine body. -/
def frameStep (affect_dict : String → List String) (f : Font)
    (modelReady streamStartOk : Bool) (events : List Ev) (inc : Option String)
    (st : GuiState) : GuiState :=
  framePost affect_dict f modelReady streamStartOk inc (events.foldl handleEvent st)

/-!  Concrete instances used by the scenario theorems and witnesses. -/

/-- A font whose every word is 140 wide and whose space is 5 wide: at surface
width 1200 the column width is 435, so exactly three such words fit on a line. -/
def font3col : Font := ⟨fun s => if s = " " then 5 else 140, fun _ => 30, 30⟩

/-- A font for a narrow surface: words 40 wide, the space 10 wide. -/
def fontNarrow : Font := ⟨fun s => if s = " " then 10 else 40, fun _ => 30, 30⟩

/-- A large font: every word 400 wide and 400 tall, so three words overflow
both columns of the 1200 x 800 window. -/
def bigFont : Font := ⟨fun _ => 400, fun _ => 400, 400⟩

/-- A font whose words are wider than the 435-wide column of the 1200 x 800
window. -/
def wideFont : Font := ⟨fun _ => 500, fun _ => 30, 30⟩

/-- One chunk of four equal-width words. -/
def chunk4 : List (List (String × Color)) :=
  [[("aaa", DEFAULT_TEXT_COLOR), ("aaa", DEFAULT_TEXT_COLOR),
    ("aaa", DEFAULT_TEXT_COLOR), ("aaa", DEFAULT_TEXT_COLOR)]]

/-- One chunk of five equal-width words. -/
def chunk5 : List (List (String × Color)) :=
  [[("b", DEFAULT_TEXT_COLOR), ("b", DEFAULT_TEXT_COLOR), ("b", DEFAULT_TEXT_COLOR),
    ("b", DEFAULT_TEXT_COLOR), ("b", DEFAULT_TEXT_COLOR)]]

/-- Two one-word chunks. -/
def chunkPair : List (List (String × Color)) :=
  [[("aaa", DEFAULT_TEXT_COLOR)], [("aaa", DEFAULT_TEXT_COLOR)]]

/-- A transcript that overflows both columns of the 1200 x 800 window under
bigFont. -/
def overflowChunks : List (List (String × Color)) :=
  [[("a", DEFAULT_TEXT_COLOR), ("a", DEFAULT_TEXT_COLOR), ("a", DEFAULT_TEXT_COLOR)]]

/-- A GUI state in FINISHED whose transcript has overflowed the layout under
bigFont. -/
def overflowFinishedSt : GuiState :=
  ⟨AppState.finished, true, true, false, overflowChunks, 42⟩

/-- A GUI state in RUNNING whose transcript has overflowed the layout under
bigFont. -/
def overflowRunningSt : GuiState :=
  ⟨AppState.running, true, true, true, overflowChunks, 42⟩

/-- A GUI state in ONBOARDING. -/
def onboardingSt : GuiState :=
  ⟨AppState.onboarding, true, false, false, [], 0⟩

/-!  Helper lemmas about the layout engine. -/

/-- Once the screen_full flag is set, one more word step keeps it set and
draws nothing. -/
theorem placeWord_full (W H : Int) (f : Font) (wc : String × Color)
    (st : LayoutState) (h : st.screenFull = true) :
    (placeWord W H f wc st).1.screenFull = true ∧ (placeWord W H f wc st).2 = [] := by
  unfold placeWord
  dsimp only
  split_ifs with h1 h2 h3 <;> simp_all

/-- Once the screen_full flag is set, the inner word loop keeps it set and
draws nothing. -/
theorem processWords_full (W H : Int) (f : Font) (l : List (String × Color))
    (st : LayoutState) (h : st.screenFull = true) :
    (processWords W H f l st).1.screenFull = true ∧
      (processWords W H f l st).2 = [] := by
  cases l with
  | nil => exact ⟨h, rfl⟩
  | cons wc rest =>
    have hp := placeWord_full W H f wc st h
    unfold processWords
    simp [hp.1, hp.2]

/-- Once the screen_full flag is set, the chunk loop keeps it set. -/
theorem processChunks_full (W H : Int) (f : Font)
    (l : List (List (String × Color))) (st : LayoutState)
    (h : st.screenFull = true) :
    (processChunks W H f l st).1.screenFull = true := by
  cases l with
  | nil => exact h
  | cons ch rest =>
    have hp := processWords_full W H f ch st h
    unfold processChunks
    simp [hp.1]

/-- The cons equation of the chunk loop, zeta-reduced. -/
theorem processChunks_cons (W H : Int) (f : Font) (ch : List (String × Color))
    (rest : List (List (String × Color))) (st : LayoutState) :
    processChunks W H f (ch :: rest) st =
      (if (processWords W H f ch st).1.screenFull then processWords W H f ch st
       else if (afterChunk W H f (processWords W H f ch st).1).screenFull then
         (afterChunk W H f (processWords W H f ch st).1, (processWords W H f ch st).2)
       else
         ((processChunks W H f rest (afterChunk W H f (processWords W H f ch st).1)).1,
          (processWords W H f ch st).2 ++
            (processChunks W H f rest
              (afterChunk W H f (processWords W H f ch st).1)).2)) := rfl

/-- Appending further chunks to a transcript whose layout already set
screen_full leaves screen_full set. -/
theorem processChunks_append_full (W H : Int) (f : Font)
    (l1 l2 : List (List (String × Color))) (st : LayoutState)
    (h : (processChunks W H f l1 st).1.screenFull = true) :
    (processChunks W H f (l1 ++ l2) st).1.screenFull = true := by
  induction l1 generalizing st with
  | nil =>
    exact processChunks_full W H f l2 st h
  | cons ch rest ih =>
    rw [List.cons_append, processChunks_cons]
    rw [processChunks_cons] at h
    by_cases h1 : (processWords W H f ch st).1.screenFull = true
    · rw [if_pos h1]
      exact h1
    · rw [if_neg h1] at h ⊢
      by_cases h2 : (afterChunk W H f (processWords W H f ch st).1).screenFull = true
      · rw [if_pos h2]
        exact h2
      · rw [if_neg h2] at h ⊢
        exact ih _ h

/-- The overflow flag of draw_text_in_columns is stable under appending one
more chunk to the transcript. -/
theorem draw_full_append (W H : Int) (f : Font)
    (l : List (List (String × Color))) (ch : List (String × Color))
    (h : (draw_text_in_columns W H f l).1 = true) :
    (draw_text_in_columns W H f (l ++ [ch])).1 = true := by
  unfold draw_text_in_columns at h ⊢
  exact processChunks_append_full W H f l [ch] initLayoutState h

/-!  Helper lemmas about the event handler and the frame body. -/

/-- Event handling never touches the transcript. -/
theorem handleEvent_chunks (st : GuiState) (ev : Ev) :
    (handleEvent st ev).chunks = st.chunks := by
  unfold handleEvent
  cases ev <;> dsimp only <;> split_ifs <;> rfl

/-- Event handling never touches the character counter. -/
theorem handleEvent_totalChars (st : GuiState) (ev : Ev) :
    (handleEvent st ev).totalChars = st.totalChars := by
  unfold handleEvent
  cases ev <;> dsimp only <;> split_ifs <;> rfl

/-- Event handling never revives a cleared while-loop flag. -/
theorem handleEvent_runFlag_false (st : GuiState) (ev : Ev)
    (h : st.runFlag = false) :
    (handleEvent st ev).runFlag = false := by
  unfold handleEvent
  cases ev <;> dsimp only <;> split_ifs <;> simp_all

/-- A QUIT event clears the while-loop flag. -/
theorem handleEvent_quit_runFlag (st : GuiState) :
    (handleEvent st Ev.quit).runFlag = false := by
  unfold handleEvent
  dsimp only
  split_ifs <;> simp_all

/-- Processing a batch of events never touches the transcript. -/
theorem foldl_handleEvent_chunks (evs : List Ev) (st : GuiState) :
    (evs.foldl handleEvent st).chunks = st.chunks := by
  induction evs generalizing st with
  | nil => rfl
  | cons e rest ih => rw [List.foldl_cons, ih, handleEvent_chunks]

/-- Processing a batch of events never touches the character counter. -/
theorem foldl_handleEvent_totalChars (evs : List Ev) (st : GuiState) :
    (evs.foldl handleEvent st).totalChars = st.totalChars := by
  induction evs generalizing st with
  | nil => rfl
  | cons e rest ih => rw [List.foldl_cons, ih, handleEvent_totalChars]

/-- Processing a batch of events never revives a cleared while-loop flag. -/
theorem foldl_handleEvent_runFlag (evs : List Ev) (st : GuiState)
    (h : st.runFlag = false) :
    (evs.foldl handleEvent st).runFlag = false := by
  induction evs generalizing st with
  | nil => exact h
  | cons e rest ih => exact ih _ (handleEvent_runFlag_false _ _ h)

/-- Consuming a fragment leaves the lifecycle state unchanged. -/
theorem consumeFragment_appState (d : String → List String) (inc : Option String)
    (st : GuiState) : (consumeFragment d inc st).appState = st.appState := by
  unfold consumeFragment
  cases inc <;> dsimp only <;> split_ifs <;> rfl

/-- Consuming a fragment leaves the while-loop flag unchanged. -/
theorem consumeFragment_runFlag (d : String → List String) (inc : Option String)
    (st : GuiState) : (consumeFragment d inc st).runFlag = st.runFlag := by
  unfold consumeFragment
  cases inc <;> dsimp only <;> split_ifs <;> rfl

/-- Consuming a fragment appends at most one chunk to the transcript. -/
theorem consumeFragment_chunks (d : String → List String) (inc : Option String)
    (st : GuiState) :
    (consumeFragment d inc st).chunks = st.chunks ∨
    ∃ ch, (consumeFragment d inc st).chunks = st.chunks ++ [ch] := by
  unfold consumeFragment
  cases inc with
  | none => exact Or.inl rfl
  | some t =>
    dsimp only
    split_ifs
    · exact Or.inl rfl
    · exact Or.inr ⟨buildChunk d t, rfl⟩

/-- Consuming a fragment never decreases the character counter. -/
theorem consumeFragment_totalChars (d : String → List String) (inc : Option String)
    (st : GuiState) : st.totalChars ≤ (consumeFragment d inc st).totalChars := by
  unfold consumeFragment
  cases inc <;> dsimp only
  · exact le_refl _
  · split_ifs <;> simp

/-- The frame body moves a RUNNING state whose transcript has overflowed the
layout to FINISHED, whatever fragment arrives during that frame. -/
theorem framePost_running_full (d : String → List String) (f : Font)
    (ml ok : Bool) (inc : Option String) (st : GuiState)
    (h1 : st.appState = AppState.running)
    (h2 : (draw_text_in_columns WINDOW_WIDTH WINDOW_HEIGHT f st.chunks).1 = true) :
    (framePost d f ml ok inc st).appState = AppState.finished := by
  unfold framePost
  dsimp only
  have hnl : ¬ (st.appState = AppState.loading ∧ ml = true) := by
    simp [h1]
  rw [if_neg hnl]
  rw [if_pos (Or.inl h1)]
  rw [if_pos h1]
  have ha : (consumeFragment d inc st).appState = AppState.running := by
    rw [consumeFragment_appState, h1]
  have hfull : (draw_text_in_columns WINDOW_WIDTH WINDOW_HEIGHT f
      (consumeFragment d inc st).chunks).1 = true := by
    rcases consumeFragment_chunks d inc st with hc | ⟨ch, hc⟩
    · rw [hc]; exact h2
    · rw [hc]; exact draw_full_append _ _ _ _ _ h2
  rw [if_pos ⟨hfull, ha⟩]

/-- The frame body never revives a cleared while-loop flag. -/
theorem framePost_runFlag_false (d : String → List String) (f : Font)
    (ml ok : Bool) (inc : Option String) (st : GuiState)
    (h : st.runFlag = false) :
    (framePost d f ml ok inc st).runFlag = false := by
  unfold framePost
  dsimp only
  split_ifs <;> simp_all [consumeFragment_runFlag]

/-- The frame body never decreases the character counter. -/
theorem framePost_totalChars (d : String → List String) (f : Font)
    (ml ok : Bool) (inc : Option String) (st : GuiState) :
    st.totalChars ≤ (framePost d f ml ok inc st).totalChars := by
  have key : ∀ R : GuiState, R.totalChars = st.totalChars →
      st.totalChars ≤ (consumeFragment d inc R).totalChars := by
    intro R h
    rw [← h]
    exact consumeFragment_totalChars d inc R
  unfold framePost
  dsimp only
  split_ifs <;> first
  | exact le_refl _
  | exact key _ rfl

/-- A resume click while FINISHED moves the state to RUNNING and restarts the
stream, with no overflow check (source lines 263-266). -/
theorem handleEvent_resume (st : GuiState) (pos : Int × Int)
    (h1 : st.appState = AppState.finished)
    (h3 : resume_button_rect.collidepoint pos) :
    handleEvent st (Ev.mouseDown pos) =
      { st with appState := AppState.running,
                streamOn := if st.stream_active then true else st.streamOn } := by
  have hns : ¬ save_button_rect.collidepoint pos := by
    intro hs
    simp only [Rect.collidepoint, resume_button_rect, save_button_rect,
      WINDOW_WIDTH, WINDOW_HEIGHT] at h3 hs
    omega
  unfold handleEvent
  dsimp only
  have hq : ¬ (Ev.mouseDown pos = Ev.quit) := by simp
  have hk : ¬ (st.appState = AppState.onboarding ∧ Ev.mouseDown pos = Ev.keyDown) := by
    simp [h1]
  have hr : ¬ (st.appState = AppState.running ∧ stop_button_rect.collidepoint pos) := by
    simp [h1]
  rw [if_neg hq, if_neg hk, if_neg hr, if_pos h1, if_neg hns, if_pos h3]

/-- C5: the TextLayoutEngine places the words of each chunk in order at the
running cursor, breaking the line when a word would pass the column's right
edge, moving to the second column or setting overflow when a line passes the
column bottom, and forcing a line break after each chunk.  Concretely: at
surface 1200 x 800 under font3col (three 140-wide words per 435-wide column),
the first three words of a four-word chunk sit on one line at y = 40 and the
fourth is placed at the line start one line down at y = 70; at surface
420 x 140 under fontNarrow, five words exhaust both columns, the fifth word
sets overflow = true, and the four placed words fill both columns; and after
a one-word chunk, the next chunk's word starts on a fresh line even though
the first line had room. -/
theorem C5_layout_scenarios :
    draw_text_in_columns 1200 800 font3col chunk4 =
      (false,
       [(("aaa", DEFAULT_TEXT_COLOR), 40, 40), (("aaa", DEFAULT_TEXT_COLOR), 185, 40),
        (("aaa", DEFAULT_TEXT_COLOR), 330, 40), (("aaa", DEFAULT_TEXT_COLOR), 40, 70)]) ∧
    draw_text_in_columns 420 140 fontNarrow chunk5 =
      (true,
       [(("b", DEFAULT_TEXT_COLOR), 40, 40), (("b", DEFAULT_TEXT_COLOR), 40, 70),
        (("b", DEFAULT_TEXT_COLOR), 335, 40), (("b", DEFAULT_TEXT_COLOR), 335, 70)]) ∧
    draw_text_in_columns 1200 800 font3col chunkPair =
      (false, [(("aaa", DEFAULT_TEXT_COLOR), 40, 40),
               (("aaa", DEFAULT_TEXT_COLOR), 40, 70)]) := by
  decide

/-- C9: the TextLayoutEngine is deterministic — identical transcript, surface
dimensions and font metrics yield identical placements and an identical
overflow flag on every run.  The embedding draw_text_in_columns is a pure
function of exactly these inputs, so equal inputs give equal outputs. -/
theorem C9_layout_deterministic (W1 W2 H1 H2 : Int) (f1 f2 : Font)
    (ch1 ch2 : List (List (String × Color)))
    (hW : W1 = W2) (hH : H1 = H2) (hf : f1 = f2) (hch : ch1 = ch2) :
    draw_text_in_columns W1 H1 f1 ch1 = draw_text_in_columns W2 H2 f2 ch2 := by
  rw [hW, hH, hf, hch]

/-- Witness for C9 at a concrete run. -/
theorem C9_witness :
    draw_text_in_columns 1200 800 font3col chunk4 =
      draw_text_in_columns 1200 800 font3col chunk4 :=
  C9_layout_deterministic 1200 1200 800 800 font3col font3col chunk4 chunk4
    rfl rfl rfl rfl

/-- C10: a word wider than the column is still placed exactly once.  From any
not-yet-full state whose cursor is at or right of the column start, a word
whose rendered width exceeds the column width forces the line break, and then
either both columns are exhausted (the word is dropped with overflow set,
the state already being in the right column with two word heights not fitting
above the bottom margin) or the word is blitted exactly once at the start of
the new line — the column x of the resulting state, with no second right-edge
check, so its extent passes the column's right edge. -/
theorem C10_wide_word_placed_once (W H : Int) (f : Font) (w : String) (c : Color)
    (st : LayoutState) (h0 : st.screenFull = false)
    (h1 : st.currentColX ≤ st.currentLineX)
    (h2 : colWidth W < f.widthOf w) :
    ((placeWord W H f (w, c) st).1.screenFull = true ∧
     (placeWord W H f (w, c) st).2 = [] ∧
     st.currentColX ≠ leftColX ∧
     H - layoutMargin < st.colY + f.heightOf w + f.heightOf w) ∨
    (∃ x y, (placeWord W H f (w, c) st).2 = [((w, c), x, y)] ∧
      x = (placeWord W H f (w, c) st).1.currentColX ∧
      ((x = st.currentColX ∧ y = st.colY + f.heightOf w) ∨
       (st.currentColX = leftColX ∧ x = rightColX W ∧ y = layoutMargin)) ∧
      x + colWidth W < x + f.widthOf w) := by
  unfold placeWord
  dsimp only
  have hcond : st.currentLineX + f.widthOf w > st.currentColX + colWidth W := by
    omega
  rw [if_pos hcond]
  by_cases hB : st.colY + f.heightOf w + f.heightOf w > H - layoutMargin
  · rw [if_pos hB]
    by_cases hC : st.currentColX = leftColX
    · rw [if_pos hC]
      dsimp only
      rw [if_neg (by simp [h0])]
      right
      exact ⟨rightColX W, layoutMargin, rfl, rfl, Or.inr ⟨hC, rfl, rfl⟩, by omega⟩
    · rw [if_neg hC]
      dsimp only
      rw [if_pos rfl]
      left
      exact ⟨rfl, rfl, hC, by omega⟩
  · rw [if_neg hB]
    dsimp only
    rw [if_neg (by simp [h0])]
    right
    exact ⟨st.currentColX, st.colY + f.heightOf w, rfl, rfl, Or.inl ⟨rfl, rfl⟩, by omega⟩

/-- C1 counterexample: the claim that a resume action in Finished moves to
Running only if the layout has not overflowed is false at the click-handler
level — in a FINISHED state whose transcript has overflowed the layout (so
the Resume button is not drawn, source line 347), a mouse click inside the
resume button rectangle still sets the state to RUNNING (source lines
263-266), with no overflow check. -/
theorem C1_counterexample :
    overflowFinishedSt.appState = AppState.finished ∧
    (draw_text_in_columns WINDOW_WIDTH WINDOW_HEIGHT bigFont
      overflowFinishedSt.chunks).1 = true ∧
    resume_button_rect.collidepoint (800, 750) ∧
    (handleEvent overflowFinishedSt (Ev.mouseDown (800, 750))).appState =
      AppState.running :=
  ⟨rfl, by decide, by decide, by decide⟩

/-- C1 amended: the resume click handler sets the state to RUNNING
unconditionally (and restarts the stream), but when the layout has overflowed
the overflow check later in the same frame moves the state back to FINISHED,
so a frame that starts in FINISHED with an overflowed transcript and receives
a resume click ends in FINISHED, not RUNNING, whatever fragment arrives. -/
theorem C1_overflow_resume_stays_finished (d : String → List String) (f : Font)
    (ml ok : Bool) (inc : Option String) (st : GuiState) (pos : Int × Int)
    (h1 : st.appState = AppState.finished)
    (h2 : (draw_text_in_columns WINDOW_WIDTH WINDOW_HEIGHT f st.chunks).1 = true)
    (h3 : resume_button_rect.collidepoint pos) :
    (frameStep d f ml ok [Ev.mouseDown pos] inc st).appState =
      AppState.finished := by
  unfold frameStep
  rw [List.foldl_cons, List.foldl_nil, handleEvent_resume st pos h1 h3]
  apply framePost_running_full
  · rfl
  · exact h2

/-- Witness for C1 at a concrete overflowed FINISHED state and resume click. -/
theorem C1_witness :
    (frameStep (fun _ => []) bigFont true true [Ev.mouseDown (800, 750)] none
      overflowFinishedSt).appState = AppState.finished :=
  C1_overflow_resume_stays_finished (fun _ => []) bigFont true true none
    overflowFinishedSt (800, 750) rfl (by decide) (by decide)

/-- C4: the classifier looks each word up case-insensitively (two words with
the same lowercasing classify identically); a word mapped to one or more
affect tags gets the color of the first tag under the fixed color table, with
an unmapped first tag falling back to the default; an unmapped word gets the
default neutral color; and for lexicon mapping "happy" to [joy], the fragment
"I am happy" yields [("I", default), ("am", default), ("happy", joy-color)]. -/
theorem C4_classifier :
    (∀ (d : String → List String) (w1 w2 : String), pyLower w1 = pyLower w2 →
      classifyWord d w1 = classifyWord d w2) ∧
    (∀ (d : String → List String) (w t : String) (ts : List String),
      d (pyLower w) = t :: ts →
      classifyWord d w = (EMOTION_COLORS.lookup t).getD DEFAULT_TEXT_COLOR) ∧
    (∀ (d : String → List String) (w : String), d (pyLower w) = [] →
      classifyWord d w = DEFAULT_TEXT_COLOR) ∧
    buildChunk happyLexicon "I am happy" =
      [("I", DEFAULT_TEXT_COLOR), ("am", DEFAULT_TEXT_COLOR),
       ("happy", (255, 165, 0))] := by
  refine ⟨?_, ?_, ?_, by decide⟩
  · intro d w1 w2 h
    unfold classifyWord
    rw [h]
  · intro d w t ts h
    unfold classifyWord
    rw [h]
    cases hl : EMOTION_COLORS.lookup t <;> simp [hl]
  · intro d w h
    unfold classifyWord
    rw [h]

/-- Witness for C4 at concrete words and the scenario lexicon. -/
theorem C4_witness :
    classifyWord happyLexicon "HAPPY" = classifyWord happyLexicon "hApPy" ∧
    classifyWord happyLexicon "happy" =
      (EMOTION_COLORS.lookup "joy").getD DEFAULT_TEXT_COLOR ∧
    classifyWord happyLexicon "walrus" = DEFAULT_TEXT_COLOR :=
  ⟨C4_classifier.1 happyLexicon "HAPPY" "hApPy" (by decide),
   C4_classifier.2.1 happyLexicon "happy" "joy" [] (by decide),
   C4_classifier.2.2.1 happyLexicon "walrus" (by decide)⟩

/-- C6: total_chars never decreases across a render-loop iteration; after
every update the lightness level equals clamp(total_chars / target, 0, 1) and
lies in [0, 1]; and with target 500, a total of 250 characters gives
lightness 0.5. -/
theorem C6_session_counters :
    (∀ (d : String → List String) (f : Font) (ml ok : Bool) (evs : List Ev)
        (inc : Option String) (st : GuiState),
      st.totalChars ≤ (frameStep d f ml ok evs inc st).totalChars) ∧
    (∀ n : Nat, lightness_level n =
      clampSpec ((n : ℚ) / (TARGET_CHARS_FOR_RELEASE : ℚ)) 0 1) ∧
    (∀ n : Nat, 0 ≤ lightness_level n ∧ lightness_level n ≤ 1) ∧
    lightness_level 250 = 1 / 2 := by
  have hnn : ∀ n : Nat, (0 : ℚ) ≤ (n : ℚ) / (TARGET_CHARS_FOR_RELEASE : ℚ) := by
    intro n
    apply div_nonneg (Nat.cast_nonneg n) (Nat.cast_nonneg _)
  refine ⟨?_, ?_, ?_, ?_⟩
  · intro d f ml ok evs inc st
    unfold frameStep
    calc st.totalChars = (evs.foldl handleEvent st).totalChars :=
          (foldl_handleEvent_totalChars evs st).symm
      _ ≤ _ := framePost_totalChars d f ml ok inc _
  · intro n
    unfold lightness_level clampSpec
    rw [max_eq_right]
    exact le_min zero_le_one (hnn n)
  · intro n
    unfold lightness_level
    exact ⟨le_min zero_le_one (hnn n), min_le_left _ _⟩
  · unfold lightness_level TARGET_CHARS_FOR_RELEASE
    rw [show ((250 : Nat) : ℚ) / ((500 : Nat) : ℚ) = 1 / 2 by norm_num]
    rw [min_eq_right (by norm_num)]

/-- C7: from Onboarding a key press moves to Loading and to no other state;
from Running a layout overflow forces Finished in a frame with no user
events; and a quit event anywhere in a frame's event batch clears the loop
flag — the terminal state — from every state. -/
theorem C7_lifecycle :
    (∀ st : GuiState, st.appState = AppState.onboarding →
      (handleEvent st Ev.keyDown).appState = AppState.loading) ∧
    (∀ (d : String → List String) (f : Font) (ml ok : Bool) (inc : Option String)
        (st : GuiState), st.appState = AppState.running →
      (draw_text_in_columns WINDOW_WIDTH WINDOW_HEIGHT f st.chunks).1 = true →
      (frameStep d f ml ok [] inc st).appState = AppState.finished) ∧
    (∀ (d : String → List String) (f : Font) (ml ok : Bool) (inc : Option String)
        (st : GuiState) (evs1 evs2 : List Ev),
      (frameStep d f ml ok (evs1 ++ Ev.quit :: evs2) inc st).runFlag = false) := by
  refine ⟨?_, ?_, ?_⟩
  · intro st h
    unfold handleEvent
    dsimp only
    have hq : ¬ (Ev.keyDown = Ev.quit) := by simp
    rw [if_neg hq, if_pos ⟨h, rfl⟩]
  · intro d f ml ok inc st h1 h2
    unfold frameStep
    rw [List.foldl_nil]
    exact framePost_running_full d f ml ok inc st h1 h2
  · intro d f ml ok inc st evs1 evs2
    unfold frameStep
    apply framePost_runFlag_false
    rw [List.foldl_append, List.foldl_cons]
    exact foldl_handleEvent_runFlag evs2 _ (handleEvent_quit_runFlag _)

/-- Witness for C7 at concrete states: a key press in onboarding, an
overflowed running frame, and a frame whose events contain a quit. -/
theorem C7_witness :
    (handleEvent onboardingSt Ev.keyDown).appState = AppState.loading ∧
    (frameStep (fun _ => []) bigFont true true [] none
      overflowRunningSt).appState = AppState.finished ∧
    (frameStep (fun _ => []) bigFont true true [Ev.keyDown, Ev.quit] none
      onboardingSt).runFlag = false :=
  ⟨C7_lifecycle.1 onboardingSt rfl,
   C7_lifecycle.2.1 (fun _ => []) bigFont true true none overflowRunningSt rfl
     (by decide),
   C7_lifecycle.2.2 (fun _ => []) bigFont true true none onboardingSt
     [Ev.keyDown] []⟩

/-- Enqueues accumulate at the tail of the queue, in order. -/
theorem foldl_put_items {α : Type} (xs : List α) (q : PyQueue α) :
    (xs.foldl PyQueue.put q).items = q.items ++ xs := by
  induction xs generalizing q with
  | nil => simp
  | cons x rest ih =>
    simp [List.foldl_cons, ih, PyQueue.put]

/-- Draining a queue of known size returns its items in FIFO order. -/
theorem drain_eq_items {α : Type} (xs : List α) :
    PyQueue.drain xs.length (⟨xs⟩ : PyQueue α) = xs := by
  induction xs with
  | nil => rfl
  | cons x rest ih =>
    simp [PyQueue.drain, PyQueue.tryGet, ih]

/-- C2 counterexample: the claim that the queues are bounded is false —
audio_queue and text_queue are queue.Queue() with maxsize 0, so no fixed
capacity bounds the queue size over all enqueue sequences: for any candidate
capacity, enqueuing one more item than it exceeds it. -/
theorem C2_counterexample :
    ¬ ∃ c : Nat, ∀ xs : List Nat,
        (xs.foldl PyQueue.put (PyQueue.empty Nat)).qsize ≤ c := by
  rintro ⟨c, h⟩
  have hc := h (List.replicate (c + 1) 0)
  rw [PyQueue.qsize, foldl_put_items] at hc
  simp [PyQueue.empty] at hc

/-- C2 amended: the AudioChunkQueue and TextQueue are unbounded FIFO queues —
every enqueue succeeds without blocking or dropping, after any sequence of
enqueues the size equals the number of items enqueued (so it exceeds every
fixed capacity on long enough sequences), and draining returns the items in
exactly the order they were enqueued. -/
theorem C2_unbounded_fifo (α : Type) (xs : List α) :
    (xs.foldl PyQueue.put (PyQueue.empty α)).qsize = xs.length ∧
    PyQueue.drain xs.length (xs.foldl PyQueue.put (PyQueue.empty α)) = xs := by
  have h1 : (xs.foldl PyQueue.put (PyQueue.empty α)).items = xs := by
    simp [foldl_put_items, PyQueue.empty]
  have hi : xs.foldl PyQueue.put (PyQueue.empty α) = (⟨xs⟩ : PyQueue α) := by
    cases hq : xs.foldl PyQueue.put (PyQueue.empty α) with
    | mk its =>
      rw [hq] at h1
      exact congrArg PyQueue.mk h1
  rw [hi]
  exact ⟨by simp [PyQueue.qsize], drain_eq_items xs⟩

/-- C3 counterexample: the claim that the worker receives with a blocking
receive with a timeout is false for EchoJournal.py — line 81 calls
audio_queue.get() with no timeout, which on an empty queue blocks forever
instead of regaining control when a timeout elapses. -/
theorem C3_counterexample :
    workerGet ([] : List Nat) = GetResult.blocked ∧
    specTimedGet ([] : List Nat) = GetResult.emptyRaised ∧
    workerGet ([] : List Nat) ≠ specTimedGet ([] : List Nat) := by
  refine ⟨rfl, rfl, ?_⟩
  decide

/-- C3 amended: while Ready the worker loop repeatedly receives one
AudioChunk by an indefinitely blocking receive with no timeout; on the
sentinel it stops and exits, performing no further receives regardless of
what follows; otherwise it invokes the transcription function and pushes the
result to the TextQueue exactly when the text is non-empty, in receipt
order — for any error-free transcription function g, a trace of chunks
followed by the sentinel yields exactly the non-empty values of g in order,
with one receive per chunk plus one for the sentinel. -/
theorem C3_worker_outputs (α : Type) (g : α → String) (cs : List α)
    (rest : List (Option α)) :
    transcription_worker (fun c => Except.ok (g c)) (cs.map some ++ none :: rest) =
      ((cs.map g).filter (fun t => decide (t ≠ "")), cs.length + 1) := by
  induction cs with
  | nil => rfl
  | cons c cs ih =>
    simp only [List.map_cons, List.cons_append, transcription_worker, List.append_eq]
    rw [ih]
    simp only [List.filter_cons, List.length_cons]
    by_cases ht : g c = ""
    · simp [ht]
    · simp [ht]

/-- C8: any invocation error raised by the transcription function while the
worker is Ready terminates the worker permanently — the iteration that hit
the error performs the only receive, no output is pushed, and no further
receive, transcription or restart happens no matter what items follow. -/
theorem C8_error_terminates (α : Type) (tr : α → Except String String) (c : α)
    (e : String) (rest : List (Option α)) (h : tr c = Except.error e) :
    transcription_worker tr (some c :: rest) = ([], 1) := by
  unfold transcription_worker
  rw [h]

/-- Witness for C8: a transcription function that always raises stops the
worker on the first chunk with one receive and no outputs, with further
chunks and the sentinel still pending. -/
theorem C8_witness :
    transcription_worker (fun _ : Nat => (Except.error "boom" : Except String String))
      (some 0 :: [some 1, none]) = ([], 1) :=
  C8_error_terminates Nat (fun _ => Except.error "boom") 0 "boom" [some 1, none] rfl

/-- Witness for C10: at the initial layout state of the 1200 x 800 window, a
500-wide word exceeds the 435-wide column and is placed once. -/
theorem C10_witness :
    ((placeWord 1200 800 wideFont ("www", DEFAULT_TEXT_COLOR) initLayoutState).1.screenFull = true ∧
     (placeWord 1200 800 wideFont ("www", DEFAULT_TEXT_COLOR) initLayoutState).2 = [] ∧
     initLayoutState.currentColX ≠ leftColX ∧
     800 - layoutMargin <
       initLayoutState.colY + wideFont.heightOf "www" + wideFont.heightOf "www") ∨
    (∃ x y,
      (placeWord 1200 800 wideFont ("www", DEFAULT_TEXT_COLOR) initLayoutState).2 =
        [(("www", DEFAULT_TEXT_COLOR), x, y)] ∧
      x = (placeWord 1200 800 wideFont ("www", DEFAULT_TEXT_COLOR) initLayoutState).1.currentColX ∧
      ((x = initLayoutState.currentColX ∧
        y = initLayoutState.colY + wideFont.heightOf "www") ∨
       (initLayoutState.currentColX = leftColX ∧ x = rightColX 1200 ∧ y = layoutMargin)) ∧
      x + colWidth 1200 < x + wideFont.widthOf "www") :=
  C10_wide_word_placed_once 1200 800 wideFont "www" DEFAULT_TEXT_COLOR initLayoutState
    (by decide) (by decide) (by decide)

end EchoJournal
